import Mathlib

/-!
Verification of the session guard and authentication pages of the
beaver habits application (beaverhabits/gui.py).

The embedding below is a shallow translation of gui.py:

* The per-user session storage (app.storage.user, a persisted dict) is
  modelled as an association list with dict get/set semantics.
* An HTTP request is modelled by its URL path (request.url.path, which
  is root_path joined with the scope path), its routing root_path, and
  its ASGI header list (pairs of byte strings, modelled as Strings).
* The Auth Service function user_check_token lives outside this
  repository slice; the middleware receives it as an abstract Boolean
  check on an optional token, as the spec describes it (a total check
  returning False on absence or invalidity).
* AuthMiddleware either short-circuits with a RedirectResponse (the
  page handler is not invoked, and the request scope headers are left
  exactly as they came in, because the function returns before the
  header mutation lines) or forwards to call_next with the mutated
  header list.  The redirect target request.url_for(login_page) is
  modelled by its path component, root_path joined with the login
  page route.
-/

set_option autoImplicit false

/-- MOUNT_PATH from gui.py. -/
def MOUNT_PATH : String := "/gui"

/-- INDEX_PATH from gui.py (aliases MOUNT_PATH). -/
def INDEX_PATH : String := "/gui"

/-- LOGIN_PATH from gui.py. -/
def LOGIN_PATH : String := "/gui/login"

/-- REGISTER_PATH from gui.py. -/
def REGISTER_PATH : String := "/gui/register"

/-- UNRESTRICTED_PAGE_ROUTES from gui.py: the declared public routes. -/
def UNRESTRICTED_PAGE_ROUTES : List String := [LOGIN_PATH, REGISTER_PATH]

/-- The page routes registered with the UI framework by the four page
decorators in gui.py: index_page at "/", demo at "/demo", login_page at
"/login", register at "/register".  These are the values of
Client.page_routes at request time. -/
def page_routes : List String := ["/", "/demo", "/login", "/register"]

/-- client_page_routes as computed inside AuthMiddleware:
os.path.join(MOUNT_PATH + x) for each registered route; os.path.join
with a single argument is the identity, so this is plain string
concatenation. -/
def client_page_routes : List String := page_routes.map (fun x => MOUNT_PATH ++ x)

/-- The per-user session storage, a string-keyed dict. -/
abbrev Store := List (String × String)

/-- Dict read with default None: app.storage.user.get(k, None). -/
def storeGet (s : Store) (k : String) : Option String :=
  (s.find? (fun p => p.1 == k)).map Prod.snd

/-- Dict write: app.storage.user[k] = v (also .update with one key). -/
def storeSet (s : Store) (k : String) (v : String) : Store :=
  (k, v) :: s.filter (fun p => p.1 != k)

/-- Dict key removal, used only to compare a session against the same
session with its token absent. -/
def storeDel (s : Store) (k : String) : Store :=
  s.filter (fun p => p.1 != k)

/-- Python str.removeprefix, character-level: when s starts with p,
drop the first length-of-p characters, otherwise return s unchanged. -/
def stripLead (s p : String) : String :=
  if s.data.take p.data.length = p.data then { data := s.data.drop p.data.length }
  else s

/-- The request data AuthMiddleware reads: request.url.path (root_path
joined with the scope path), request.scope root_path, and the request
scope header list. -/
structure RequestT where
  path : String
  root_path : String
  headers : List (String × String)

/-- The f-string f"Bearer {token}": Python str() renders the absent
token as the literal "None". -/
def bearer (tok : Option String) : String :=
  "Bearer " ++ (match tok with | some t => t | none => "None")

/-- The header mutation in AuthMiddleware: remove every entry whose
name equals authorization, then append the freshly built bearer
header. -/
def mutateHeaders (hs : List (String × String)) (tok : Option String) :
    List (String × String) :=
  hs.filter (fun e => e.1 != "authorization") ++ [("authorization", bearer tok)]

/-- The middleware outcome: either a RedirectResponse short-circuit
(carrying the session as left behind and the request scope headers as
they stand at the return, i.e. untouched), or forwarding to call_next
with the mutated headers and the session. -/
inductive MwResult where
  | redirect (target : String) (session : Store) (headers : List (String × String))
  | forward (headers : List (String × String)) (session : Store)
deriving DecidableEq

/-- True exactly on the RedirectResponse short-circuit. -/
def MwResult.isRedirect : MwResult → Bool
  | .redirect _ _ _ => true
  | .forward _ _ => false

/-- AuthMiddleware from gui.py.  check is the Auth Service
user_check_token, received abstractly; the spec describes it as a total
Boolean check (absence or invalidity gives False, never an
exception). -/
def AuthMiddleware (check : Option String → Bool) (req : RequestT) (s : Store) :
    MwResult :=
  if check (storeGet s "auth_token") = false then
    if req.path ∈ client_page_routes ∧ req.path ∉ UNRESTRICTED_PAGE_ROUTES then
      MwResult.redirect (req.root_path ++ "/login")
        (storeSet s "referrer_path" (stripLead req.path req.root_path))
        req.headers
    else
      MwResult.forward (mutateHeaders req.headers (storeGet s "auth_token")) s
  else
    MwResult.forward (mutateHeaders req.headers (storeGet s "auth_token")) s

/-- A page handler outcome: a RedirectResponse or rendering the form. -/
inductive PageResult where
  | redirectResp (target : String)
  | renderForm
deriving DecidableEq

/-- login_page from gui.py: when the stored token passes the check,
return RedirectResponse(INDEX_PATH) before building any UI; otherwise
render the login form. -/
def login_page (check : Option String → Bool) (s : Store) : PageResult :=
  if check (storeGet s "auth_token") = true then
    PageResult.redirectResp INDEX_PATH
  else
    PageResult.renderForm

/-- A user-visible effect of a form submit handler. -/
inductive UiEffect where
  | navigate (target : String)
  | notify (msg : String) (negative : Bool)
  | nothing
deriving DecidableEq

/-- The expression token = user and await user_create_token(user):
None when authentication returned no user, otherwise whatever
create_token returned. -/
def loginToken (auth : Option String) (create_token : String → Option String) :
    Option String :=
  match auth with
  | none => none
  | some u => create_token u

/-- try_login from gui.py.  auth is the user_authenticate result,
create_token the Auth Service token issuer.  On a token, store it and
navigate to the stored referrer (default "/"); otherwise notify with a
negative-coloured message and leave the session alone. -/
def try_login (auth : Option String) (create_token : String → Option String)
    (s : Store) : Store × UiEffect :=
  match loginToken auth create_token with
  | some t =>
      let s' := storeSet s "auth_token" t
      (s', UiEffect.navigate ((storeGet s' "referrer_path").getD "/"))
  | none => (s, UiEffect.notify "email or password wrong!" true)

/-- try_register from gui.py.  create_user is the user_create call
outcome: an exception message or a user.  On an exception, notify with
its message (default colour) and change nothing; on success issue a
token exactly as login does; when the token is None, nothing at all
happens. -/
def try_register (create_user : Except String String)
    (create_token : String → Option String) (s : Store) : Store × UiEffect :=
  match create_user with
  | Except.error e => (s, UiEffect.notify e false)
  | Except.ok u =>
      match create_token u with
      | some t =>
          let s' := storeSet s "auth_token" t
          (s', UiEffect.navigate ((storeGet s' "referrer_path").getD "/"))
      | none => (s, UiEffect.nothing)

/-! Dict laws for the session store. -/

theorem storeGet_storeSet_same (s : Store) (k v : String) :
    storeGet (storeSet s k v) k = some v := by
  simp [storeGet, storeSet, List.find?]

theorem find?_filter_ne (s : Store) (k k' : String) (h : k' ≠ k) :
    List.find? (fun p => p.1 == k') (s.filter (fun p => p.1 != k)) =
      List.find? (fun p => p.1 == k') s := by
  induction s with
  | nil => rfl
  | cons a t ih =>
    by_cases hak : a.1 = k
    · have h1 : (a.1 != k) = false := by simp [hak]
      have h2 : (a.1 == k') = false := by
        simp [hak]
        exact fun he => h he.symm
      simp [List.filter, List.find?, h1, h2, ih]
    · by_cases hak2 : a.1 = k'
      · have h1 : (a.1 != k) = true := by simp [hak]
        have h2 : (a.1 == k') = true := by simp [hak2]
        simp [List.filter, List.find?, h1, h2]
      · have h1 : (a.1 != k) = true := by simp [hak]
        have h2 : (a.1 == k') = false := by simp [hak2]
        simp [List.filter, List.find?, h1, h2, ih]

theorem storeGet_storeSet_other (s : Store) (k v k' : String) (h : k' ≠ k) :
    storeGet (storeSet s k v) k' = storeGet s k' := by
  have hk : (k == k') = false := by
    simp
    exact fun he => h he.symm
  simp [storeGet, storeSet, List.find?, hk, find?_filter_ne s k k' h]

theorem storeGet_storeDel_same (s : Store) (k : String) :
    storeGet (storeDel s k) k = none := by
  induction s with
  | nil => rfl
  | cons a t ih =>
    by_cases hak : a.1 = k
    · have h1 : (a.1 != k) = false := by simp [hak]
      simp [storeDel, List.filter, h1]
      simp [storeDel] at ih
      exact ih
    · have h1 : (a.1 != k) = true := by simp [hak]
      have h2 : (a.1 == k) = false := by simp [hak]
      simp [storeGet, storeDel] at ih
      simp [storeGet, storeDel, List.filter, List.find?, h1, h2, ih]

/-! Helper facts about the middleware. -/

theorem filter_auth_of_stripped (hs : List (String × String)) :
    (hs.filter (fun e => e.1 != "authorization")).filter
        (fun e => e.1 == "authorization") = [] := by
  induction hs with
  | nil => rfl
  | cons a t ih =>
    by_cases h : a.1 = "authorization"
    · have h1 : (a.1 != "authorization") = false := by simp [h]
      simp [List.filter, h1, ih]
    · have h1 : (a.1 != "authorization") = true := by simp [h]
      have h2 : (a.1 == "authorization") = false := by simp [h]
      simp [List.filter, h1, h2, ih]

theorem mutateHeaders_auth_singleton (hs : List (String × String))
    (tok : Option String) :
    (mutateHeaders hs tok).filter (fun e => e.1 == "authorization") =
      [("authorization", bearer tok)] := by
  simp [mutateHeaders, List.filter_append, filter_auth_of_stripped, List.filter]

theorem AuthMiddleware_forward_inv (check : Option String → Bool) (req : RequestT)
    (s : Store) (hs' : List (String × String)) (s' : Store)
    (h : AuthMiddleware check req s = MwResult.forward hs' s') :
    hs' = mutateHeaders req.headers (storeGet s "auth_token") ∧ s' = s := by
  unfold AuthMiddleware at h
  split at h
  · split at h
    · exact absurd h (by simp)
    · cases h
      exact ⟨rfl, rfl⟩
  · cases h
    exact ⟨rfl, rfl⟩

/-! Claim theorems. -/

/-- C1: for every request whose path is in the protected set (a
registered page route that is not one of the declared public routes)
made with a session whose token is absent or fails the Auth Service
check, the middleware short-circuits with a redirect to the login page
(the page handler is not invoked) and the session referrer_path
afterwards equals the requested path with the routing root_path
stripped from its front. -/
theorem C1_protected_unauthed_redirects (check : Option String → Bool)
    (req : RequestT) (s : Store)
    (hmem : req.path ∈ client_page_routes)
    (hpub : req.path ∉ UNRESTRICTED_PAGE_ROUTES)
    (hfail : check (storeGet s "auth_token") = false) :
    AuthMiddleware check req s =
      MwResult.redirect (req.root_path ++ "/login")
        (storeSet s "referrer_path" (stripLead req.path req.root_path))
        req.headers ∧
    storeGet (storeSet s "referrer_path" (stripLead req.path req.root_path))
        "referrer_path" = some (stripLead req.path req.root_path) := by
  refine ⟨?_, storeGet_storeSet_same s "referrer_path" _⟩
  simp [AuthMiddleware, hfail, hmem, hpub]

/-- C1 witness: the index page path "/gui/" with an empty session and a
rejecting check. -/
theorem C1_witness :
    "/gui/" ∈ client_page_routes ∧
    "/gui/" ∉ UNRESTRICTED_PAGE_ROUTES ∧
    (AuthMiddleware (fun _ => false) ⟨"/gui/", "/gui", []⟩ [] =
        MwResult.redirect ("/gui" ++ "/login")
          (storeSet [] "referrer_path" (stripLead "/gui/" "/gui")) [] ∧
      storeGet (storeSet [] "referrer_path" (stripLead "/gui/" "/gui"))
          "referrer_path" = some (stripLead "/gui/" "/gui")) :=
  ⟨by decide, by decide,
    C1_protected_unauthed_redirects (fun _ => false) ⟨"/gui/", "/gui", []⟩ []
      (by decide) (by decide) rfl⟩

/-- C2 counterexample: the demo page is served at "/gui/demo", which is
a registered page route and not one of the declared public routes, so an
unauthenticated request to it is answered with a redirect to the login
page — contradicting the claim that the demo page is never redirected. -/
theorem C2_counterexample_demo_redirects :
    AuthMiddleware (fun _ => false) ⟨"/gui/demo", "/gui", []⟩ [] =
      MwResult.redirect "/gui/login" [("referrer_path", "/demo")] [] := by
  decide

/-- C2 (amended): for the declared public routes /gui/login and
/gui/register the middleware never answers with a redirect to the login
page, whatever the token state: it always forwards, with the session
unchanged. -/
theorem C2_public_routes_never_redirect (check : Option String → Bool)
    (req : RequestT) (s : Store)
    (hpub : req.path ∈ UNRESTRICTED_PAGE_ROUTES) :
    AuthMiddleware check req s =
      MwResult.forward (mutateHeaders req.headers (storeGet s "auth_token")) s := by
  unfold AuthMiddleware
  split
  · split
    · next hc => exact absurd hpub hc.2
    · rfl
  · rfl

/-- C2 witness: the login route with no token and a rejecting check is
still forwarded. -/
theorem C2_witness :
    LOGIN_PATH ∈ UNRESTRICTED_PAGE_ROUTES ∧
    AuthMiddleware (fun _ => false) ⟨LOGIN_PATH, "/gui", []⟩ [] =
      MwResult.forward (mutateHeaders [] (storeGet [] "auth_token")) [] :=
  ⟨by decide,
    C2_public_routes_never_redirect (fun _ => false) ⟨LOGIN_PATH, "/gui", []⟩ []
      (by decide)⟩

/-- C3: whenever the middleware forwards a request, the forwarded header
list contains exactly one authorization entry — whatever number of
authorization entries the inbound request carried — and its value is the
bearer string built from the session token ("Bearer None" when the
session has no token). -/
theorem C3_forwarded_single_authorization (check : Option String → Bool)
    (req : RequestT) (s : Store) (hs' : List (String × String)) (s' : Store)
    (h : AuthMiddleware check req s = MwResult.forward hs' s') :
    hs'.filter (fun e => e.1 == "authorization") =
      [("authorization", bearer (storeGet s "auth_token"))] := by
  obtain ⟨h1, -⟩ := AuthMiddleware_forward_inv check req s hs' s' h
  rw [h1]
  exact mutateHeaders_auth_singleton req.headers (storeGet s "auth_token")

/-- C3 witness: a forwarded request that arrived with two authorization
headers ends up with exactly the single bearer entry. -/
theorem C3_witness :
    (mutateHeaders [("authorization", "a"), ("authorization", "b")]
        (storeGet ([] : Store) "auth_token")).filter
          (fun e => e.1 == "authorization") =
      [("authorization", bearer (storeGet ([] : Store) "auth_token"))] :=
  C3_forwarded_single_authorization (fun _ => true)
    ⟨"/gui/", "/gui", [("authorization", "a"), ("authorization", "b")]⟩ []
    (mutateHeaders [("authorization", "a"), ("authorization", "b")]
      (storeGet [] "auth_token")) [] rfl

/-- C4 counterexample: an unauthenticated request to the protected path
"/gui/" carrying an authorization header is answered with the login
redirect, and the request scope headers at that point are exactly the
inbound ones — different from what the strip-and-append mutation would
have produced — so the claim that the mutation is applied to every
request, redirected ones included, fails here. -/
theorem C4_counterexample_redirect_skips_mutation :
    (AuthMiddleware (fun _ => false)
        ⟨"/gui/", "/gui", [("authorization", "Basic abc")]⟩ [] =
      MwResult.redirect "/gui/login" [("referrer_path", "/")]
        [("authorization", "Basic abc")]) ∧
    [("authorization", "Basic abc")] ≠
      mutateHeaders [("authorization", "Basic abc")] none :=
  ⟨by decide, by decide⟩

/-- C4 (amended): the authorization-header mutation is applied to every
request the middleware forwards, authenticated or not; a request
answered with the login redirect is returned before the mutation runs,
its scope headers left exactly as they came in. -/
theorem C4_mutation_on_forwarded_requests (check : Option String → Bool)
    (req : RequestT) (s : Store) :
    (∀ hs' s', AuthMiddleware check req s = MwResult.forward hs' s' →
        hs' = mutateHeaders req.headers (storeGet s "auth_token")) ∧
    (∀ t s' hs', AuthMiddleware check req s = MwResult.redirect t s' hs' →
        hs' = req.headers) := by
  constructor
  · intro hs' s' h
    exact (AuthMiddleware_forward_inv check req s hs' s' h).1
  · intro t s' hs' h
    unfold AuthMiddleware at h
    split at h
    · split at h
      · cases h
        rfl
      · exact absurd h (by simp)
    · exact absurd h (by simp)

/-- C4 witness: at a concrete unauthenticated forwarded request the
forwarded header list is the mutation of the inbound one, evaluated. -/
theorem C4_witness :
    mutateHeaders [("authorization", "x")] (storeGet ([] : Store) "auth_token") =
      [("authorization", "Bearer None")] := by
  have h := (C4_mutation_on_forwarded_requests (fun _ => true)
      ⟨"/gui/", "/gui", [("authorization", "x")]⟩ []).1
      [("authorization", "Bearer None")] [] (by decide)
  exact h.symm

/-- C5 counterexample: "/gui" itself is not among the registered page
routes (the index page route joined to the mount is "/gui/"), so with no
token the middleware forwards a request whose URL path is "/gui" rather
than redirecting it; and even for "/gui/" the stored referrer_path is
the prefix-stripped "/", never "/gui". -/
theorem C5_counterexample_gui_is_forwarded :
    ("/gui" ∉ client_page_routes) ∧
    (AuthMiddleware (fun _ => false) ⟨"/gui", "/gui", []⟩ [] =
      MwResult.forward [("authorization", "Bearer None")] []) ∧
    (AuthMiddleware (fun _ => false) ⟨"/gui/", "/gui", []⟩ [] =
      MwResult.redirect "/gui/login" [("referrer_path", "/")] []) :=
  ⟨by decide, by decide, by decide⟩

/-- C5 (amended): with the session token absent — and the token check
rejecting an absent token, as the spec states — a request to the index
page path "/gui/" with root_path "/gui" is answered with a redirect to
"/gui/login" and the session referrer_path becomes "/", the
prefix-stripped path. -/
theorem C5_index_unauthed_redirects (check : Option String → Bool)
    (s : Store) (hs : List (String × String))
    (htok : storeGet s "auth_token" = none)
    (hchk : check none = false) :
    AuthMiddleware check ⟨"/gui/", "/gui", hs⟩ s =
      MwResult.redirect "/gui/login" (storeSet s "referrer_path" "/") hs ∧
    storeGet (storeSet s "referrer_path" "/") "referrer_path" = some "/" := by
  refine ⟨?_, storeGet_storeSet_same s "referrer_path" "/"⟩
  have hfail : check (storeGet s "auth_token") = false := by rw [htok]; exact hchk
  have hstrip : stripLead "/gui/" "/gui" = "/" := by decide
  have hmem : ("/gui/" : String) ∈ client_page_routes := by decide
  have hpub : ("/gui/" : String) ∉ UNRESTRICTED_PAGE_ROUTES := by decide
  simp [AuthMiddleware, hfail, hmem, hpub, hstrip]

/-- C5 witness: the empty session with a rejecting check. -/
theorem C5_witness :
    storeGet ([] : Store) "auth_token" = none ∧
    (AuthMiddleware (fun _ => false) ⟨"/gui/", "/gui", []⟩ [] =
        MwResult.redirect "/gui/login" (storeSet [] "referrer_path" "/") [] ∧
      storeGet (storeSet [] "referrer_path" "/") "referrer_path" = some "/") :=
  ⟨rfl, C5_index_unauthed_redirects (fun _ => false) [] [] rfl rfl⟩

/-- C6: when the stored session token passes the Auth Service check as
the login page loads, login_page short-circuits with a RedirectResponse
to INDEX_PATH (home) without rendering the login form. -/
theorem C6_login_page_idempotent (check : Option String → Bool) (s : Store)
    (h : check (storeGet s "auth_token") = true) :
    login_page check s = PageResult.redirectResp INDEX_PATH := by
  simp [login_page, h]

/-- C6 witness: a session holding a token the check accepts. -/
theorem C6_witness :
    login_page (fun _ => true) [("auth_token", "t")] =
      PageResult.redirectResp INDEX_PATH :=
  C6_login_page_idempotent (fun _ => true) [("auth_token", "t")] rfl

/-- C7: on a failed login attempt — authenticate returned no user, or
create_token returned no token — try_login shows a negative-coloured
notice and returns the session exactly as it was: no auth_token and no
referrer_path mutation, so the user may retry. -/
theorem C7_failed_login_leaves_session (auth : Option String)
    (create_token : String → Option String) (s : Store)
    (h : auth = none ∨ ∃ u, auth = some u ∧ create_token u = none) :
    try_login auth create_token s =
      (s, UiEffect.notify "email or password wrong!" true) := by
  have htok : loginToken auth create_token = none := by
    rcases h with h | ⟨u, hu, hcu⟩
    · simp [loginToken, h]
    · simp [loginToken, hu, hcu]
  simp [try_login, htok]

/-- C7 witness: bad credentials against a session that already stores a
referrer_path; the session comes back verbatim. -/
theorem C7_witness :
    try_login none (fun _ => none) [("referrer_path", "/gui/")] =
      ([("referrer_path", "/gui/")], UiEffect.notify "email or password wrong!" true) :=
  C7_failed_login_leaves_session none (fun _ => none) [("referrer_path", "/gui/")]
    (Or.inl rfl)

/-- C8: when user_create raises (modelled as an Except.error carrying
the exception message), try_register surfaces that message as a notice,
returns normally, and leaves the session untouched — in particular no
token is created or stored. -/
theorem C8_register_exception_no_mutation (e : String)
    (create_token : String → Option String) (s : Store) :
    try_register (Except.error e) create_token s = (s, UiEffect.notify e false) ∧
    storeGet (try_register (Except.error e) create_token s).1 "auth_token" =
      storeGet s "auth_token" :=
  ⟨rfl, rfl⟩

/-- C8 witness: a duplicate-email exception message, evaluated. -/
theorem C8_witness :
    try_register (Except.error "duplicate email") (fun _ => some "t") [] =
      ([], UiEffect.notify "duplicate email" false) ∧
    storeGet (try_register (Except.error "duplicate email") (fun _ => some "t") []).1
        "auth_token" = storeGet ([] : Store) "auth_token" :=
  C8_register_exception_no_mutation "duplicate email" (fun _ => some "t") []

/-- C9: a failing token check is handled identically to an absent token:
the middleware makes the same redirect-or-forward decision on the
session as on that session with its auth_token key removed, and on a
protected path it fails closed with the login redirect; the token check
being modelled, per the spec, as a total Boolean function, the
middleware is itself a total function into MwResult, so no token-check
exception reaches the client. -/
theorem C9_invalid_token_like_absent (check : Option String → Bool)
    (req : RequestT) (s : Store)
    (hfail : check (storeGet s "auth_token") = false)
    (hnone : check none = false) :
    (AuthMiddleware check req s).isRedirect =
      (AuthMiddleware check req (storeDel s "auth_token")).isRedirect ∧
    (req.path ∈ client_page_routes ∧ req.path ∉ UNRESTRICTED_PAGE_ROUTES →
      (AuthMiddleware check req s).isRedirect = true) := by
  have hdel : check (storeGet (storeDel s "auth_token") "auth_token") = false := by
    rw [storeGet_storeDel_same]
    exact hnone
  constructor
  · by_cases hp : req.path ∈ client_page_routes ∧ req.path ∉ UNRESTRICTED_PAGE_ROUTES
    · simp [AuthMiddleware, hfail, hdel, hp, MwResult.isRedirect]
    · simp [AuthMiddleware, hfail, hdel, hp, MwResult.isRedirect]
  · intro hp
    simp [AuthMiddleware, hfail, hp, MwResult.isRedirect]

/-- C9 witness: a session holding a token the check rejects is
redirected on the index page path. -/
theorem C9_witness :
    (AuthMiddleware (fun _ => false) ⟨"/gui/", "/gui", []⟩
        [("auth_token", "bad")]).isRedirect = true :=
  (C9_invalid_token_like_absent (fun _ => false) ⟨"/gui/", "/gui", []⟩
      [("auth_token", "bad")] rfl rfl).2 (by decide)

/-- C10: the middleware never writes the session auth_token: a forwarded
request gets its session back untouched, and on a redirect the only key
whose value may differ is referrer_path — auth_token in particular reads
the same — and that redirect arises only in the
unauthenticated-protected branch. -/
theorem C10_session_frame (check : Option String → Bool) (req : RequestT)
    (s : Store) :
    (∀ hs' s', AuthMiddleware check req s = MwResult.forward hs' s' → s' = s) ∧
    (∀ t s' hs', AuthMiddleware check req s = MwResult.redirect t s' hs' →
      storeGet s' "auth_token" = storeGet s "auth_token" ∧
      (∀ k, k ≠ "referrer_path" → storeGet s' k = storeGet s k) ∧
      check (storeGet s "auth_token") = false ∧
      req.path ∈ client_page_routes ∧ req.path ∉ UNRESTRICTED_PAGE_ROUTES) := by
  constructor
  · intro hs' s' h
    exact (AuthMiddleware_forward_inv check req s hs' s' h).2
  · intro t s' hs' h
    unfold AuthMiddleware at h
    by_cases hchk : check (storeGet s "auth_token") = false
    · rw [if_pos hchk] at h
      by_cases hmem : req.path ∈ client_page_routes ∧ req.path ∉ UNRESTRICTED_PAGE_ROUTES
      · rw [if_pos hmem] at h
        cases h
        exact ⟨storeGet_storeSet_other s "referrer_path" _ "auth_token" (by decide),
          fun k hk => storeGet_storeSet_other s "referrer_path" _ k hk,
          hchk, hmem⟩
      · rw [if_neg hmem] at h
        exact absurd h (by simp)
    · rw [if_neg hchk] at h
      exact absurd h (by simp)

/-- C10 witness: the auth_token read is unchanged across the concrete
redirect of an unauthenticated request to the index page path. -/
theorem C10_witness :
    storeGet [("referrer_path", "/")] "auth_token" =
      storeGet ([] : Store) "auth_token" :=
  ((C10_session_frame (fun _ => false) ⟨"/gui/", "/gui", []⟩ []).2
    "/gui/login" [("referrer_path", "/")] [] (by decide)).1
